import Mathlib

/-
Verification of the Auto-Market backend listing-lifecycle orchestrator.

The definitions below are a shallow embedding of the Python source:
  - api/models.py                (Product record, Product.mark_sold)
  - api/dual_marketplace_service.py
      (DualMarketplaceService.list_product_both_platforms,
       unlist_product_both_platforms, mark_sold_and_unlist_other,
       the _list_on_* / _unlist_from_* helpers and _update_product_status)
  - api/marketplace_service.py   (MarketplaceService.list_product_on_platform
                                  status block, update_listing_price)
  - api/admin_views.py           (admin_product_update_status list action,
                                  admin_product_update_price)
  - api/admin_serializers.py     (AdminProductPriceUpdateSerializer)
  - api/ebay_service.py          (eBayService.end_listing)
  - api/amazon_sp_service.py     (AmazonSPAPIService.delete_product_listing,
                                  _update_inventory)
  - api/marketplace_views.py     (sync_listing_status)

Django model saves are modelled as returning the new persisted record; remote
marketplace interactions are parameters describing the observations the code
branches on (HTTP status codes, response flags, raised exceptions).  Persisted
writes and outgoing adapter calls are recorded in an event trace where an
ordering property is at stake.
-/

namespace AutoMarket

/-- Python truthiness of an optional string field (None and the empty string
are falsy), as used by checks such as `if product.ebay_listing_id:`. -/
def pyTruthyStr : Option String → Bool
  | none => false
  | some s => s ≠ ""

/-- Python truthiness of an optional price (None and 0 are falsy), as used by
`if sale_price:` in Product.mark_sold. -/
def pyTruthyPrice : Option ℚ → Bool
  | none => false
  | some q => q ≠ 0

/-- Model of the Python str.upper() call (ASCII upper-casing). -/
def pyUpper (s : String) : String :=
  String.mk (s.data.map Char.toUpper)

/-- The persisted Product record (api/models.py).  listing_status is the raw
string stored in the CharField; Django does not validate choices on save, so
the dual service can and does persist values outside LISTING_STATUS_CHOICES
(EBAY_ONLY, AMAZON_ONLY, FAILED). -/
structure Product where
  listing_status : String
  ebay_listing_id : Option String
  ebay_listing_url : Option String
  amazon_listing_id : Option String
  amazon_listing_url : Option String
  final_listing_price : Option ℚ
  estimated_value : ℚ
  sold_platform : Option String
  sold_price : Option ℚ
  sold_at : Option ℕ
  deriving DecidableEq, Repr

/-- Observable side effects: a persisted save of the record, an EndListing
call to a platform, or an UpdatePrice call to a platform. -/
inductive Event where
  | save (p : Product)
  | callEndListing (platform : String) (listing_id : Option String)
  | callUpdatePrice (platform : String) (offer_id : String) (price : ℚ)
  deriving DecidableEq, Repr

/-- Product.mark_sold (api/models.py lines 154-168): upper-cases the platform,
sets the sold status and platform only for EBAY or AMAZON, sets sold_price
only for a truthy sale price, always stamps sold_at, and saves. -/
def Product.mark_sold (p : Product) (platform : String) (sale_price : Option ℚ)
    (now : ℕ) : Product :=
  let p1 :=
    if pyUpper platform = "EBAY" then
      { p with listing_status := "EBAY_SOLD", sold_platform := some "EBAY" }
    else if pyUpper platform = "AMAZON" then
      { p with listing_status := "AMAZON_SOLD", sold_platform := some "AMAZON" }
    else p
  let p2 := if pyTruthyPrice sale_price then { p1 with sold_price := sale_price } else p1
  { p2 with sold_at := some now }

/-- Outcome of one CreateListing adapter call as consumed by the dual service:
success with id and url, an error result, or a raised exception (caught by the
per-platform handler). -/
inductive CreateOutcome where
  | ok (listing_id : String) (listing_url : String)
  | err (msg : String)
  | raise (msg : String)
  deriving DecidableEq, Repr

/-- Outcome of one EndListing / delete-listing adapter call as consumed by the
dual service helpers.  In the deployed wiring the eBay call always takes the
raise branch: DualMarketplaceService.ebay_api is marketplace_service.py
EbayAPIService, which defines no end_listing method, so the dispatch raises
AttributeError and is caught by the helper. -/
inductive EndOutcome where
  | ok
  | err (msg : String)
  | raise (msg : String)
  deriving DecidableEq, Repr

/-- Whether the end-listing call reported success. -/
def EndOutcome.isOk : EndOutcome → Bool
  | .ok => true
  | _ => false

/-- Result dict of DualMarketplaceService._list_on_ebay / _list_on_amazon. -/
structure PlatformListResult where
  success : Bool
  platform : String
  listing_id : Option String
  listing_url : Option String
  error : Option String
  deriving DecidableEq, Repr

/-- DualMarketplaceService._list_on_ebay (lines 133-168): on success stores the
eBay id and url on the product and saves; on an error result or a raised
exception the product is untouched. -/
def _list_on_ebay (p : Product) (o : CreateOutcome) : Product × PlatformListResult :=
  match o with
  | .ok lid url =>
    ({ p with ebay_listing_id := some lid, ebay_listing_url := some url },
     { success := true, platform := "eBay", listing_id := some lid,
       listing_url := some url, error := none })
  | .err m =>
    (p, { success := false, platform := "eBay", listing_id := none,
          listing_url := none, error := some m })
  | .raise m =>
    (p, { success := false, platform := "eBay", listing_id := none,
          listing_url := none, error := some ("eBay API error: " ++ m) })

/-- DualMarketplaceService._list_on_amazon (lines 170-233). -/
def _list_on_amazon (p : Product) (o : CreateOutcome) : Product × PlatformListResult :=
  match o with
  | .ok lid url =>
    ({ p with amazon_listing_id := some lid, amazon_listing_url := some url },
     { success := true, platform := "Amazon", listing_id := some lid,
       listing_url := some url, error := none })
  | .err m =>
    (p, { success := false, platform := "Amazon", listing_id := none,
          listing_url := none, error := some m })
  | .raise m =>
    (p, { success := false, platform := "Amazon", listing_id := none,
          listing_url := none, error := some ("Amazon SP-API error: " ++ m) })

/-- DualMarketplaceService._update_product_status (lines 392-406). -/
def _update_product_status (p : Product) (ebay_success amazon_success : Bool) : Product :=
  if ebay_success && amazon_success then { p with listing_status := "LISTED" }
  else if ebay_success then { p with listing_status := "EBAY_ONLY" }
  else if amazon_success then { p with listing_status := "AMAZON_ONLY" }
  else { p with listing_status := "FAILED" }

/-- The error text taken from a platform result, with the default used by
`result.get(\x27error\x27, ...)` in the aggregating code. -/
def errText (r : PlatformListResult) : String :=
  r.error.getD "Unknown error"

/-- Aggregate response of list_product_both_platforms. -/
structure DualListResult where
  success : Bool
  status : Option String
  errors : List String
  error : Option String
  deriving DecidableEq, Repr

/-- DualMarketplaceService.list_product_both_platforms (lines 27-103): refuses
products that are not APPROVED, lists on eBay then Amazon, persists the
aggregate status via _update_product_status, and assembles the response with
its per-platform error strings. -/
def list_product_both_platforms (p : Product) (eo ao : CreateOutcome) :
    Product × DualListResult :=
  if p.listing_status ≠ "APPROVED" then
    (p, { success := false, status := none, errors := [],
          error := some "Product must be approved before listing" })
  else
    let pe := _list_on_ebay p eo
    let pa := _list_on_amazon pe.1 ao
    let p2 := _update_product_status pa.1 pe.2.success pa.2.success
    if pe.2.success && pa.2.success then
      (p2, { success := true, status := some "LISTED_BOTH", errors := [], error := none })
    else if pe.2.success || pa.2.success then
      (p2, { success := true, status := some "LISTED_PARTIAL",
             errors := (if pe.2.success then [] else ["eBay: " ++ errText pe.2]) ++
                       (if pa.2.success then [] else ["Amazon: " ++ errText pa.2]),
             error := none })
    else
      (p2, { success := false, status := some "FAILED",
             errors := ["eBay: " ++ errText pe.2, "Amazon: " ++ errText pa.2],
             error := none })

/-- Result dict of the _unlist_from_ebay / _unlist_from_amazon helpers (the
no-listing-found placeholder has platform := none). -/
structure UnlistPlatformResult where
  success : Bool
  platform : Option String
  message : Option String
  error : Option String
  deriving DecidableEq, Repr

/-- DualMarketplaceService._unlist_from_ebay (lines 340-364): attempts the end
call; only on a success result clears the eBay id and url and saves; an error
result or a raised exception leaves the record untouched. -/
def _unlist_from_ebay (p : Product) (o : EndOutcome) :
    Product × UnlistPlatformResult × List Event :=
  match o with
  | .ok =>
    let p2 := { p with ebay_listing_id := none, ebay_listing_url := none }
    (p2, { success := true, platform := some "eBay",
           message := some "Successfully unlisted from eBay", error := none },
     [Event.callEndListing "eBay" p.ebay_listing_id, Event.save p2])
  | .err m =>
    (p, { success := false, platform := some "eBay", message := none, error := some m },
     [Event.callEndListing "eBay" p.ebay_listing_id])
  | .raise m =>
    (p, { success := false, platform := some "eBay", message := none,
          error := some ("eBay unlisting error: " ++ m) },
     [Event.callEndListing "eBay" p.ebay_listing_id])

/-- DualMarketplaceService._unlist_from_amazon (lines 366-390). -/
def _unlist_from_amazon (p : Product) (o : EndOutcome) :
    Product × UnlistPlatformResult × List Event :=
  match o with
  | .ok =>
    let p2 := { p with amazon_listing_id := none, amazon_listing_url := none }
    (p2, { success := true, platform := some "Amazon",
           message := some "Successfully unlisted from Amazon", error := none },
     [Event.callEndListing "Amazon" p.amazon_listing_id, Event.save p2])
  | .err m =>
    (p, { success := false, platform := some "Amazon", message := none, error := some m },
     [Event.callEndListing "Amazon" p.amazon_listing_id])
  | .raise m =>
    (p, { success := false, platform := some "Amazon", message := none,
          error := some ("Amazon unlisting error: " ++ m) },
     [Event.callEndListing "Amazon" p.amazon_listing_id])

/-- Aggregate response of unlist_product_both_platforms. -/
structure DualUnlistResult where
  success : Bool
  ebay : UnlistPlatformResult
  amazon : UnlistPlatformResult
  deriving DecidableEq, Repr

/-- DualMarketplaceService.unlist_product_both_platforms (lines 235-289): ends
each platform listing that has a truthy id (placeholder success result
otherwise), then unconditionally persists listing_status REMOVED; the
aggregate success flag is initialised True and never changed. -/
def unlist_product_both_platforms (p : Product) (eo ao : EndOutcome) :
    Product × DualUnlistResult × List Event :=
  let re :=
    if pyTruthyStr p.ebay_listing_id then _unlist_from_ebay p eo
    else (p, { success := true, platform := none,
               message := some "No eBay listing found to unlist", error := none }, [])
  let ra :=
    if pyTruthyStr re.1.amazon_listing_id then _unlist_from_amazon re.1 ao
    else (re.1, { success := true, platform := none,
                  message := some "No Amazon listing found to unlist", error := none }, [])
  let p3 := { ra.1 with listing_status := "REMOVED" }
  (p3, { success := true, ebay := re.2.1, amazon := ra.2.1 },
   re.2.2 ++ ra.2.2 ++ [Event.save p3])

/-- Aggregate response of mark_sold_and_unlist_other. -/
structure MarkSoldResult where
  success : Bool
  sold_platform : String
  sale_price : Option ℚ
  amazon : Option UnlistPlatformResult
  ebay : Option UnlistPlatformResult
  deriving DecidableEq, Repr

/-- DualMarketplaceService.mark_sold_and_unlist_other (lines 291-338):
upper-cases the platform, calls Product.mark_sold (which saves the sold state),
and only then attempts the best-effort end call on the other platform when
that platform has a truthy listing id.  other_end is the outcome of that
cross-platform end call. -/
def mark_sold_and_unlist_other (p : Product) (sold_platform : String)
    (sale_price : Option ℚ) (now : ℕ) (other_end : EndOutcome) :
    Product × MarkSoldResult × List Event :=
  let sp := pyUpper sold_platform
  let p1 := p.mark_sold sp sale_price now
  let base : MarkSoldResult :=
    { success := true, sold_platform := sp, sale_price := sale_price,
      amazon := none, ebay := none }
  if sp = "EBAY" ∧ pyTruthyStr p1.amazon_listing_id = true then
    let r := _unlist_from_amazon p1 other_end
    (r.1, { base with amazon := some r.2.1 }, Event.save p1 :: r.2.2)
  else if sp = "AMAZON" ∧ pyTruthyStr p1.ebay_listing_id = true then
    let r := _unlist_from_ebay p1 other_end
    (r.1, { base with ebay := some r.2.1 }, Event.save p1 :: r.2.2)
  else
    (p1, base, [Event.save p1])

/-- Environment of one MarketplaceService.update_listing_price call for
platform EBAY (marketplace_service.py lines 965-1136): the code may find no
access token, the offers fetch may raise or return a non-200 status, the
matching offer may be missing, or the offer is found and a price-update PUT
is issued with the given HTTP status. -/
inductive EbayPriceEnv where
  | noToken
  | offersRequestRaises (msg : String)
  | offersHttpError (code : ℕ)
  | offerNotFound
  | offerFound (offer_id : String) (put_status : ℕ)
  deriving DecidableEq, Repr

/-- Per-platform result entry of update_listing_price. -/
structure PriceCallResult where
  success : Bool
  error : Option String
  deriving DecidableEq, Repr

/-- MarketplaceService.update_listing_price with platform EBAY: the remote
UpdatePrice PUT is issued exactly when a target offer is found, and succeeds
exactly when that PUT returns HTTP 200.  The product record itself is never
modified here; with platform EBAY the Amazon branch is skipped entirely. -/
def update_listing_price_EBAY (p : Product) (new_price : ℚ) (env : EbayPriceEnv) :
    PriceCallResult × List Event :=
  if pyTruthyStr p.ebay_listing_id then
    match env with
    | .noToken =>
      ({ success := false, error := some "Could not obtain eBay access token" }, [])
    | .offersRequestRaises m =>
      ({ success := false, error := some ("eBay API request failed: " ++ m) }, [])
    | .offersHttpError _ =>
      ({ success := false, error := some "Failed to get eBay offers" }, [])
    | .offerNotFound =>
      ({ success := false, error := some "Could not find eBay offer to update" }, [])
    | .offerFound oid code =>
      ({ success := code = 200,
         error := if code = 200 then none else some "Failed to update eBay price" },
       [Event.callUpdatePrice "eBay" oid new_price])
  else
    ({ success := false, error := none }, [])

/-- Response of the admin price endpoint, reduced to whether the request was
accepted (HTTP 200) or rejected by the serializer (HTTP 400). -/
structure AdminPriceResponse where
  ok : Bool
  deriving DecidableEq, Repr

/-- admin_product_update_price (admin_views.py lines 434-502) together with
AdminProductPriceUpdateSerializer (admin_serializers.py lines 189-222): a
price of at most 0 fails validate_final_price and a sold product fails
validate, each rejected with HTTP 400 before the record is touched or any
platform call is made; otherwise final_listing_price is persisted first and
the eBay listing price update is attempted only for a LISTED product with a
truthy eBay id, with its failure only changing the response message. -/
def admin_product_update_price (p : Product) (final_price : ℚ) (env : EbayPriceEnv) :
    Product × AdminPriceResponse × List Event :=
  if final_price ≤ 0 then (p, { ok := false }, [])
  else if p.listing_status = "EBAY_SOLD" ∨ p.listing_status = "AMAZON_SOLD" then
    (p, { ok := false }, [])
  else
    let p1 := { p with final_listing_price := some final_price }
    if p1.listing_status = "LISTED" ∧ pyTruthyStr p1.ebay_listing_id = true then
      let r := update_listing_price_EBAY p1 final_price env
      (p1, { ok := true }, Event.save p1 :: r.2)
    else
      (p1, { ok := true }, [Event.save p1])

/-- MarketplaceService.list_product_on_platform with platform BOTH
(marketplace_service.py lines 725-963), reduced to its persisted effect: each
adapter outcome is success with an id and url (stored on the record) or
failure; the status block at lines 936-949 persists LISTED when at least one
platform succeeded and APPROVED when both failed, and the return value has
success True (the outer except is not reached for adapter failures, which are
all caught per platform). -/
def list_product_on_platform_BOTH (p : Product) (eb am : Option (String × String)) :
    Product × Bool :=
  let p1 :=
    match eb with
    | some x => { p with ebay_listing_id := some x.1, ebay_listing_url := some x.2 }
    | none => p
  let p2 :=
    match am with
    | some x => { p1 with amazon_listing_id := some x.1, amazon_listing_url := some x.2 }
    | none => p1
  let p3 :=
    if eb.isSome && am.isSome then { p2 with listing_status := "LISTED" }
    else if eb.isSome || am.isSome then { p2 with listing_status := "LISTED" }
    else { p2 with listing_status := "APPROVED" }
  (p3, true)

/-- The states from which admin_product_update_status allows the list action
(admin_views.py valid_transitions table); any status outside the table maps
to the empty action list. -/
def listActionAllowed (s : String) : Bool :=
  s = "PENDING" ∨ s = "APPROVED" ∨ s = "LISTED" ∨ s = "REJECTED" ∨ s = "REMOVED"

/-- The list action of admin_product_update_status (admin_views.py lines
306-351): after the transition check it sets final_listing_price (explicit
price, else keeps a truthy existing one, else estimated_value), delegates to
MarketplaceService.list_product_on_platform BOTH, and then persists
listing_status LISTED on both the success and the failure branch of the
result.  Returns the persisted record and whether the action was accepted. -/
def admin_update_status_list (p : Product) (listing_price : Option ℚ)
    (eb am : Option (String × String)) : Product × Bool :=
  if listActionAllowed p.listing_status then
    let p0 :=
      if pyTruthyPrice listing_price then { p with final_listing_price := listing_price }
      else if pyTruthyPrice p.final_listing_price = false then
        { p with final_listing_price := some p.estimated_value }
      else p
    let r := list_product_on_platform_BOTH p0 eb am
    ({ r.1 with listing_status := "LISTED" }, true)
  else
    (p, false)

/-- Observations of the eBay Trading API EndFixedPriceItem call made by
eBayService.end_listing: a raised exception, or a response with its HTTP
status and the three substring checks the code performs on the body (an Ack
of Success or Warning, presence of an ErrorCode tag, and the phrases already
ended or not found). -/
inductive TradingCall where
  | raises (msg : String)
  | resp (status_code : ℕ) (ack_ok : Bool) (has_error_code : Bool)
      (already_ended_or_not_found : Bool)
  deriving DecidableEq, Repr

/-- Observations of one plain HTTP call (the Inventory API withdraw and REST
end fallbacks): a raised exception or a response status code. -/
inductive HttpCall where
  | raises (msg : String)
  | resp (status_code : ℕ)
  deriving DecidableEq, Repr

/-- Result of eBayService.end_listing. -/
structure EndListingResult where
  success : Bool
  message : Option String
  error : Option String
  deriving DecidableEq, Repr

/-- eBayService.end_listing (ebay_service.py lines 363-458): tries the
Trading API (success on Ack Success/Warning, and success on an ErrorCode
response whose text says already ended or not found), then falls through to
the Inventory API withdraw and the REST end call (success on HTTP 200/204),
and only fails after all three methods fail. -/
def end_listing (t : TradingCall) (inv rest : HttpCall) : EndListingResult :=
  let m1 : Option EndListingResult :=
    match t with
    | .raises _ => none
    | .resp code ack ec ae =>
      if code = 200 then
        if ack then
          some { success := true,
                 message := some "Listing ended successfully via Trading API",
                 error := none }
        else if ec && ae then
          some { success := true,
                 message := some "Listing already ended or not found",
                 error := none }
        else none
      else none
  match m1 with
  | some r => r
  | none =>
    let m2 : Option EndListingResult :=
      match inv with
      | .raises _ => none
      | .resp c =>
        if c = 200 ∨ c = 204 then
          some { success := true,
                 message := some "Listing ended successfully via Inventory API",
                 error := none }
        else none
    match m2 with
    | some r => r
    | none =>
      let ok3 :=
        match rest with
        | .raises _ => false
        | .resp c => c = 200 ∨ c = 204
      if ok3 then
        { success := true,
          message := some "Listing ended successfully via REST Trading API",
          error := none }
      else
        { success := false,
          message := some "Could not end listing via any API method - manual intervention required",
          error := some "All API methods failed" }

/-- Outcome of the inventory-update POST inside
AmazonSPAPIService._update_inventory: ok, or any exception (including the
HTTPError that raise_for_status raises on a 404 for an unknown listing). -/
inductive InvUpdateCall where
  | ok
  | fail (msg : String)
  deriving DecidableEq, Repr

/-- Result of AmazonSPAPIService.delete_product_listing / _update_inventory. -/
structure AmzDeleteResult where
  success : Bool
  message : Option String
  error : Option String
  deriving DecidableEq, Repr

/-- AmazonSPAPIService._update_inventory (amazon_sp_service.py lines 464-494):
success unless the POST raises, in which case the error is reported. -/
def _update_inventory (o : InvUpdateCall) : AmzDeleteResult :=
  match o with
  | .ok => { success := true, message := none, error := none }
  | .fail m =>
    { success := false, message := none, error := some ("Inventory update failed: " ++ m) }

/-- AmazonSPAPIService.delete_product_listing (lines 227-255): demo mode
always succeeds; production mode delists by updating inventory to 0 and
returns the inventory-update failure unchanged when that call fails. -/
def delete_product_listing (is_production : Bool) (listing_id : String)
    (o : InvUpdateCall) : AmzDeleteResult :=
  if is_production = false then
    { success := true,
      message := some ("Demo: Successfully removed listing " ++ listing_id),
      error := none }
  else
    let r := _update_inventory o
    if r.success then
      { success := true, message := some ("Successfully delisted " ++ listing_id),
        error := none }
    else r

/-- One entry of the sync_listing_status response. -/
structure SyncEntry where
  ebay_status : Option String
  amazon_status : Option String
  synced : Bool
  deriving DecidableEq, Repr

/-- Per-product body of the reconciliation sweep sync_listing_status
(marketplace_views.py lines 289-345): the eBay and Amazon status checks are
commented out in the source, both local status variables stay None, no
adapter call is made and the product record is never written; the entry is
reported as synced. -/
def sync_listing_status_product (p : Product) : Product × SyncEntry × List Event :=
  (p, { ebay_status := none, amazon_status := none, synced := true }, [])

/-- One orchestrator operation on a product record, with the adapter outcomes
as parameters: the dual-platform list, unlist and markSold commands and one
reconciliation sweep cycle. -/
inductive Step : Product → Product → Prop where
  | list (p : Product) (eo ao : CreateOutcome) :
      Step p (list_product_both_platforms p eo ao).1
  | unlist (p : Product) (eo ao : EndOutcome) :
      Step p (unlist_product_both_platforms p eo ao).1
  | markSold (p : Product) (sp : String) (price : Option ℚ) (now : ℕ) (o : EndOutcome) :
      Step p (mark_sold_and_unlist_other p sp price now o).1
  | sweep (p : Product) :
      Step p (sync_listing_status_product p).1

/-- A freshly approved record: APPROVED with no listing ids. -/
def InitialProduct (p : Product) : Prop :=
  p.listing_status = "APPROVED" ∧ p.ebay_listing_id = none ∧ p.amazon_listing_id = none

/-- States in which the record can carry a truthy eBay listing id: live on
both or on eBay alone, sold (markSold never clears the selling platform id
and a failed end call retains the other one), or removed with a failed end
call. -/
def EbayIdStates (s : String) : Prop :=
  s = "LISTED" ∨ s = "EBAY_ONLY" ∨ s = "EBAY_SOLD" ∨ s = "AMAZON_SOLD" ∨ s = "REMOVED"

/-- States in which the record can carry a truthy Amazon listing id. -/
def AmazonIdStates (s : String) : Prop :=
  s = "LISTED" ∨ s = "AMAZON_ONLY" ∨ s = "EBAY_SOLD" ∨ s = "AMAZON_SOLD" ∨ s = "REMOVED"

/-- The listing-id/status invariant that actually holds on reachable records. -/
def StatusInv (p : Product) : Prop :=
  (pyTruthyStr p.ebay_listing_id = true → EbayIdStates p.listing_status) ∧
  (pyTruthyStr p.amazon_listing_id = true → AmazonIdStates p.listing_status)

/-- A concrete record listed on both platforms, used as evaluation input. -/
def exListed : Product :=
  { listing_status := "LISTED"
    ebay_listing_id := some "E1"
    ebay_listing_url := some "https://www.ebay.com/itm/E1"
    amazon_listing_id := some "B1"
    amazon_listing_url := some "https://www.amazon.com/dp/B1"
    final_listing_price := some 100
    estimated_value := 90
    sold_platform := none
    sold_price := none
    sold_at := none }

/-- A concrete freshly approved record with no listings. -/
def exApproved : Product :=
  { exListed with
    listing_status := "APPROVED"
    ebay_listing_id := none
    ebay_listing_url := none
    amazon_listing_id := none
    amazon_listing_url := none }

/-- Claim C10: Product.mark_sold with a platform whose upper-case form is
neither EBAY nor AMAZON leaves listing_status and sold_platform unchanged but
still stamps sold_at with the current time, sets sold_price exactly when a
truthy sale price is given, and saves the record. -/
theorem mark_sold_unknown_platform (p : Product) (s : String) (price : Option ℚ)
    (now : ℕ) (h1 : pyUpper s ≠ "EBAY") (h2 : pyUpper s ≠ "AMAZON") :
    (p.mark_sold s price now).listing_status = p.listing_status ∧
    (p.mark_sold s price now).sold_platform = p.sold_platform ∧
    (p.mark_sold s price now).sold_at = some now ∧
    (p.mark_sold s price now).sold_price =
      (if pyTruthyPrice price then price else p.sold_price) := by
  simp only [Product.mark_sold, if_neg h1, if_neg h2]
  by_cases hp : pyTruthyPrice price <;> simp [hp]

/-- Witness for C10 at a concrete record, platform Walmart and price 5. -/
theorem mark_sold_unknown_platform_witness :
    pyUpper "Walmart" ≠ "EBAY" ∧ pyUpper "Walmart" ≠ "AMAZON" ∧
    ((exListed.mark_sold "Walmart" (some 5) 7).listing_status = exListed.listing_status ∧
     (exListed.mark_sold "Walmart" (some 5) 7).sold_platform = exListed.sold_platform ∧
     (exListed.mark_sold "Walmart" (some 5) 7).sold_at = some 7 ∧
     (exListed.mark_sold "Walmart" (some 5) 7).sold_price =
       (if pyTruthyPrice (some 5) then some 5 else exListed.sold_price)) :=
  ⟨by decide, by decide,
   mark_sold_unknown_platform exListed "Walmart" (some 5) 7 (by decide) (by decide)⟩

/-- Claim C9: for every product, whatever its lifecycle state and whatever
the two end-listing outcomes, unlist_product_both_platforms persists
listing_status REMOVED and reports success; a platform listing id is cleared
exactly when that platform had a truthy id and its end call succeeded, so a
failed end call retains the id. -/
theorem unlist_always_removes_and_succeeds (p : Product) (eo ao : EndOutcome) :
    (unlist_product_both_platforms p eo ao).1.listing_status = "REMOVED" ∧
    (unlist_product_both_platforms p eo ao).2.1.success = true ∧
    (unlist_product_both_platforms p eo ao).1.ebay_listing_id =
      (if pyTruthyStr p.ebay_listing_id && EndOutcome.isOk eo then none
       else p.ebay_listing_id) ∧
    (unlist_product_both_platforms p eo ao).1.amazon_listing_id =
      (if pyTruthyStr p.amazon_listing_id && EndOutcome.isOk ao then none
       else p.amazon_listing_id) := by
  by_cases he : pyTruthyStr p.ebay_listing_id <;>
    by_cases ha : pyTruthyStr p.amazon_listing_id <;>
      cases eo <;> cases ao <;>
        simp [unlist_product_both_platforms, _unlist_from_ebay, _unlist_from_amazon,
          EndOutcome.isOk, he, ha]

/-- Claim C8: a reprice command with price at most 0 is rejected by the
serializer before the record is saved or any platform-adapter call is made:
the persisted record is returned unchanged, the response is a 400 rejection,
and the event trace is empty. -/
theorem reprice_nonpositive_rejected (p : Product) (price : ℚ) (env : EbayPriceEnv)
    (h : price ≤ 0) :
    admin_product_update_price p price env =
      (p, ({ ok := false } : AdminPriceResponse), []) := by
  simp [admin_product_update_price, if_pos h]

/-- Witness for C8 at a concrete listed record and price -3. -/
theorem reprice_nonpositive_rejected_witness :
    ((-3 : ℚ) ≤ 0) ∧
    admin_product_update_price exListed (-3) EbayPriceEnv.noToken =
      (exListed, ({ ok := false } : AdminPriceResponse), []) :=
  ⟨by decide, reprice_nonpositive_rejected exListed (-3) EbayPriceEnv.noToken (by decide)⟩

/-- Counterexample to claim C6: in production mode the Amazon adapter does
not treat a not-found listing as success; the inventory-update call raises a
404 HTTPError and delete_product_listing returns failure. -/
theorem amazon_end_not_found_counterexample :
    (delete_product_listing true "B00EXAMPLE"
      (InvUpdateCall.fail "404 Client Error: Not Found for url")).success = false := by
  decide

/-- Claim C6 as amended: the eBay adapter treats an already-ended or
not-found listing (reported via a 200 Trading API response carrying an
ErrorCode with those phrases) as success whatever the fallback calls would
return; the Amazon adapter returns success for any failing inventory update
only in demo mode, while in production mode the same not-found failure makes
delete_product_listing return failure. -/
theorem end_listing_idempotent_amended (inv rest : HttpCall) (lid msg : String) :
    (end_listing (TradingCall.resp 200 false true true) inv rest).success = true ∧
    (delete_product_listing false lid (InvUpdateCall.fail msg)).success = true ∧
    (delete_product_listing true lid (InvUpdateCall.fail msg)).success = false := by
  refine ⟨by simp [end_listing], by simp [delete_product_listing], ?_⟩
  simp [delete_product_listing, _update_inventory]

/-- Claim C4, evaluated on the code at the failing input: for a record in
LISTED whose Amazon listing was externally ended, one sweep cycle makes no
adapter call and leaves the record byte-for-byte unchanged: still LISTED with
the Amazon sub-record intact, not transitioned to a partial state. -/
theorem sweep_leaves_externally_ended_listing_unchanged :
    exListed.listing_status = "LISTED" ∧
    pyTruthyStr exListed.amazon_listing_id = true ∧
    (sync_listing_status_product exListed).1 = exListed ∧
    (sync_listing_status_product exListed).2.2 = [] ∧
    (sync_listing_status_product exListed).1.listing_status = "LISTED" ∧
    (sync_listing_status_product exListed).1.amazon_listing_id = some "B1" ∧
    (sync_listing_status_product exListed).1.listing_status ≠ "EBAY_ONLY" ∧
    (sync_listing_status_product exListed).1.listing_status ≠ "LISTED_PARTIAL" := by
  decide

/-- Counterexample to claim C2: for a concrete approved item on which eBay
succeeds and Amazon fails, the persisted lifecycle state is EBAY_ONLY, not
LISTED_PARTIAL. -/
theorem dual_list_partial_state_counterexample :
    (list_product_both_platforms exApproved (CreateOutcome.ok "E1" "u1")
      (CreateOutcome.err "category rejected")).1.listing_status = "EBAY_ONLY" ∧
    (list_product_both_platforms exApproved (CreateOutcome.ok "E1" "u1")
      (CreateOutcome.err "category rejected")).1.listing_status ≠ "LISTED_PARTIAL" := by
  decide

/-- Claim C2 as amended: for an approved item with no Amazon listing id, when
eBay CreateListing succeeds and Amazon fails, the persisted lifecycle state
is EBAY_ONLY (the platform-specific partial status; the string LISTED_PARTIAL
appears only in the response status field), the item has the non-null eBay
listing id, a null Amazon listing id, and the returned error list contains
exactly one entry, for Amazon. -/
theorem dual_list_partial_success_result (p : Product) (lid url msg : String)
    (hp : p.listing_status = "APPROVED") (hb : p.amazon_listing_id = none) :
    (list_product_both_platforms p (CreateOutcome.ok lid url)
      (CreateOutcome.err msg)).1.listing_status = "EBAY_ONLY" ∧
    (list_product_both_platforms p (CreateOutcome.ok lid url)
      (CreateOutcome.err msg)).1.ebay_listing_id = some lid ∧
    (list_product_both_platforms p (CreateOutcome.ok lid url)
      (CreateOutcome.err msg)).1.amazon_listing_id = none ∧
    (list_product_both_platforms p (CreateOutcome.ok lid url)
      (CreateOutcome.err msg)).2.errors = ["Amazon: " ++ msg] ∧
    (list_product_both_platforms p (CreateOutcome.ok lid url)
      (CreateOutcome.err msg)).2.status = some "LISTED_PARTIAL" := by
  simp [list_product_both_platforms, _list_on_ebay, _list_on_amazon,
    _update_product_status, errText, hp, hb]

/-- Witness for the amended C2 at a concrete approved record. -/
theorem dual_list_partial_success_result_witness :
    exApproved.listing_status = "APPROVED" ∧ exApproved.amazon_listing_id = none ∧
    ((list_product_both_platforms exApproved (CreateOutcome.ok "E1" "u1")
        (CreateOutcome.err "rejected")).1.listing_status = "EBAY_ONLY" ∧
     (list_product_both_platforms exApproved (CreateOutcome.ok "E1" "u1")
        (CreateOutcome.err "rejected")).1.ebay_listing_id = some "E1" ∧
     (list_product_both_platforms exApproved (CreateOutcome.ok "E1" "u1")
        (CreateOutcome.err "rejected")).1.amazon_listing_id = none ∧
     (list_product_both_platforms exApproved (CreateOutcome.ok "E1" "u1")
        (CreateOutcome.err "rejected")).2.errors = ["Amazon: " ++ "rejected"] ∧
     (list_product_both_platforms exApproved (CreateOutcome.ok "E1" "u1")
        (CreateOutcome.err "rejected")).2.status = some "LISTED_PARTIAL") :=
  ⟨rfl, rfl,
   dual_list_partial_success_result exApproved "E1" "u1" "rejected" rfl rfl⟩

/-- Counterexample to claim C3: for a concrete approved item on which both
platforms fail, the admin list command persists LISTED, so the record does
not remain APPROVED. -/
theorem admin_list_both_fail_counterexample :
    (admin_update_status_list exApproved none none none).1.listing_status = "LISTED" ∧
    (admin_update_status_list exApproved none none none).1.listing_status ≠ "APPROVED" := by
  decide

/-- Claim C3 as amended: when listing fails on both platforms, only the inner
MarketplaceService.list_product_on_platform status block leaves the record
APPROVED; the admin list command then overrides the persisted state to LISTED
on every result branch, and the dual-marketplace command persists FAILED, so
after either full command the record does not remain APPROVED. -/
theorem list_both_fail_persisted_states (p : Product) (lp : Option ℚ)
    (em am : String) (hp : p.listing_status = "APPROVED") :
    (admin_update_status_list p lp none none).1.listing_status = "LISTED" ∧
    (list_product_on_platform_BOTH p none none).1.listing_status = "APPROVED" ∧
    (list_product_both_platforms p (CreateOutcome.err em)
      (CreateOutcome.err am)).1.listing_status = "FAILED" := by
  refine ⟨?_, by simp [list_product_on_platform_BOTH], ?_⟩
  · simp [admin_update_status_list, listActionAllowed, hp]
  · simp [list_product_both_platforms, _list_on_ebay, _list_on_amazon,
      _update_product_status, hp]

/-- Witness for the amended C3 at a concrete approved record. -/
theorem list_both_fail_persisted_states_witness :
    exApproved.listing_status = "APPROVED" ∧
    ((admin_update_status_list exApproved none none none).1.listing_status = "LISTED" ∧
     (list_product_on_platform_BOTH exApproved none none).1.listing_status = "APPROVED" ∧
     (list_product_both_platforms exApproved (CreateOutcome.err "e")
        (CreateOutcome.err "a")).1.listing_status = "FAILED") :=
  ⟨rfl, list_both_fail_persisted_states exApproved none "e" "a" rfl⟩

/-- Number of remote UpdatePrice calls to one platform in an event trace. -/
def countUpdatePriceCalls (pl : String) (evs : List Event) : ℕ :=
  evs.countP fun e =>
    match e with
    | Event.callUpdatePrice q _ _ => q == pl
    | _ => false

lemma admin_price_state (p : Product) (price : ℚ) (env : EbayPriceEnv)
    (hn : ¬ price ≤ 0)
    (hns : ¬ (p.listing_status = "EBAY_SOLD" ∨ p.listing_status = "AMAZON_SOLD")) :
    (admin_product_update_price p price env).1 =
      { p with final_listing_price := some price } := by
  simp only [admin_product_update_price, if_neg hn, if_neg hns]
  split <;> rfl

lemma admin_price_calls (p : Product) (price : ℚ) (env : EbayPriceEnv)
    (hn : ¬ price ≤ 0)
    (hns : ¬ (p.listing_status = "EBAY_SOLD" ∨ p.listing_status = "AMAZON_SOLD")) :
    countUpdatePriceCalls "eBay" (admin_product_update_price p price env).2.2 ≤ 1 ∧
    countUpdatePriceCalls "Amazon" (admin_product_update_price p price env).2.2 = 0 := by
  simp only [admin_product_update_price, if_neg hn, if_neg hns]
  split
  · rename_i hc
    cases env <;>
      simp [update_listing_price_EBAY, countUpdatePriceCalls, hc.2, List.countP_cons]
  · simp [countUpdatePriceCalls]

/-- Claim C7: for an item in a live-listing state and a positive price,
applying the admin reprice command twice commits final_listing_price to the
new price after each call whatever the remote outcomes are, and the second
call issues at most one remote UpdatePrice call to eBay and none to Amazon. -/
theorem reprice_twice_idempotent (p : Product) (price : ℚ) (env1 env2 : EbayPriceEnv)
    (hpos : 0 < price)
    (hlive : p.listing_status = "LISTED" ∨ p.listing_status = "EBAY_ONLY" ∨
      p.listing_status = "AMAZON_ONLY") :
    (admin_product_update_price p price env1).1.final_listing_price = some price ∧
    (admin_product_update_price (admin_product_update_price p price env1).1
      price env2).1.final_listing_price = some price ∧
    countUpdatePriceCalls "eBay"
      (admin_product_update_price (admin_product_update_price p price env1).1
        price env2).2.2 ≤ 1 ∧
    countUpdatePriceCalls "Amazon"
      (admin_product_update_price (admin_product_update_price p price env1).1
        price env2).2.2 = 0 := by
  have hn : ¬ price ≤ 0 := not_le.mpr hpos
  have hns : ¬ (p.listing_status = "EBAY_SOLD" ∨ p.listing_status = "AMAZON_SOLD") := by
    rcases hlive with h | h | h <;> rw [h] <;> decide
  have h1 := admin_price_state p price env1 hn hns
  have hns2 : ¬ (({ p with final_listing_price := some price } : Product).listing_status
      = "EBAY_SOLD" ∨
      ({ p with final_listing_price := some price } : Product).listing_status
      = "AMAZON_SOLD") := hns
  refine ⟨by rw [h1], ?_, ?_, ?_⟩
  · rw [h1, admin_price_state _ price env2 hn hns2]
  · rw [h1]
    exact (admin_price_calls _ price env2 hn hns2).1
  · rw [h1]
    exact (admin_price_calls _ price env2 hn hns2).2

/-- Witness for C7 at a concrete listed record, price 120, a successful first
remote update and a failing second one. -/
theorem reprice_twice_idempotent_witness :
    (0 : ℚ) < 120 ∧
    (exListed.listing_status = "LISTED" ∨ exListed.listing_status = "EBAY_ONLY" ∨
      exListed.listing_status = "AMAZON_ONLY") ∧
    ((admin_product_update_price exListed 120 (EbayPriceEnv.offerFound "o1" 200)).1.final_listing_price = some 120 ∧
     (admin_product_update_price
        (admin_product_update_price exListed 120 (EbayPriceEnv.offerFound "o1" 200)).1
        120 (EbayPriceEnv.offerFound "o1" 500)).1.final_listing_price = some 120 ∧
     countUpdatePriceCalls "eBay"
       (admin_product_update_price
         (admin_product_update_price exListed 120 (EbayPriceEnv.offerFound "o1" 200)).1
         120 (EbayPriceEnv.offerFound "o1" 500)).2.2 ≤ 1 ∧
     countUpdatePriceCalls "Amazon"
       (admin_product_update_price
         (admin_product_update_price exListed 120 (EbayPriceEnv.offerFound "o1" 200)).1
         120 (EbayPriceEnv.offerFound "o1" 500)).2.2 = 0) :=
  ⟨by decide, Or.inl rfl,
   reprice_twice_idempotent exListed 120 (EbayPriceEnv.offerFound "o1" 200)
     (EbayPriceEnv.offerFound "o1" 500) (by decide) (Or.inl rfl)⟩

/-- Whether every persisted save in an event trace carries the given sold
status, sold platform and sold timestamp. -/
def savesCarrySoldState (st spU : String) (now : ℕ) (evs : List Event) : Bool :=
  evs.all fun e =>
    match e with
    | Event.save q =>
        q.listing_status == st && q.sold_platform == some spU && q.sold_at == some now
    | _ => true

/-- Claim C1: for an item in a listed state and a valid platform, the markSold
command persists the sold fields and the terminal sold status as the very
first event of its trace, before any EndListing call on the other platform is
attempted; every persisted save in the trace carries the sold status, and the
final record keeps it whatever the end call returns or raises. -/
theorem mark_sold_persists_sold_before_end (p : Product) (spRaw : String)
    (price : Option ℚ) (now : ℕ) (o : EndOutcome)
    (hlive : p.listing_status = "LISTED" ∨ p.listing_status = "EBAY_ONLY" ∨
      p.listing_status = "AMAZON_ONLY")
    (hsp : pyUpper spRaw = "EBAY" ∨ pyUpper spRaw = "AMAZON") :
    ((mark_sold_and_unlist_other p spRaw price now o).2.2).head? =
      some (Event.save (p.mark_sold (pyUpper spRaw) price now)) ∧
    savesCarrySoldState
      (if pyUpper spRaw = "EBAY" then "EBAY_SOLD" else "AMAZON_SOLD")
      (pyUpper spRaw) now
      (mark_sold_and_unlist_other p spRaw price now o).2.2 = true ∧
    (mark_sold_and_unlist_other p spRaw price now o).1.listing_status =
      (if pyUpper spRaw = "EBAY" then "EBAY_SOLD" else "AMAZON_SOLD") ∧
    (mark_sold_and_unlist_other p spRaw price now o).1.sold_platform =
      some (pyUpper spRaw) ∧
    (mark_sold_and_unlist_other p spRaw price now o).1.sold_at = some now := by
  rcases hsp with h | h <;> rw [h] <;>
    by_cases hpr : pyTruthyPrice price <;>
      by_cases hA : pyTruthyStr p.amazon_listing_id <;>
        by_cases hE : pyTruthyStr p.ebay_listing_id <;>
          cases o <;>
            simp_all [mark_sold_and_unlist_other, Product.mark_sold,
              _unlist_from_amazon, _unlist_from_ebay, pyUpper, savesCarrySoldState]

/-- Witness for C1 at a concrete dual-listed record, sold on eBay at 95, with
the cross-platform end call raising a transient error. -/
theorem mark_sold_persists_sold_before_end_witness :
    (exListed.listing_status = "LISTED" ∨ exListed.listing_status = "EBAY_ONLY" ∨
      exListed.listing_status = "AMAZON_ONLY") ∧
    (pyUpper "eBay" = "EBAY" ∨ pyUpper "eBay" = "AMAZON") ∧
    (((mark_sold_and_unlist_other exListed "eBay" (some 95) 11
        (EndOutcome.raise "TransientPlatformError")).2.2).head? =
      some (Event.save (exListed.mark_sold (pyUpper "eBay") (some 95) 11)) ∧
     savesCarrySoldState
       (if pyUpper "eBay" = "EBAY" then "EBAY_SOLD" else "AMAZON_SOLD")
       (pyUpper "eBay") 11
       (mark_sold_and_unlist_other exListed "eBay" (some 95) 11
         (EndOutcome.raise "TransientPlatformError")).2.2 = true ∧
     (mark_sold_and_unlist_other exListed "eBay" (some 95) 11
        (EndOutcome.raise "TransientPlatformError")).1.listing_status =
       (if pyUpper "eBay" = "EBAY" then "EBAY_SOLD" else "AMAZON_SOLD") ∧
     (mark_sold_and_unlist_other exListed "eBay" (some 95) 11
        (EndOutcome.raise "TransientPlatformError")).1.sold_platform =
       some (pyUpper "eBay") ∧
     (mark_sold_and_unlist_other exListed "eBay" (some 95) 11
        (EndOutcome.raise "TransientPlatformError")).1.sold_at = some 11) :=
  ⟨Or.inl rfl, Or.inl (by decide),
   mark_sold_persists_sold_before_end exListed "eBay" (some 95) 11
     (EndOutcome.raise "TransientPlatformError") (Or.inl rfl) (Or.inl (by decide))⟩

/-- Counterexample to claim C5: one list step from a freshly approved record,
with eBay succeeding and Amazon failing, reaches a record holding a non-null
eBay listing id whose lifecycle state is EBAY_ONLY, which is neither LISTED
nor LISTED_PARTIAL. -/
theorem listing_id_state_invariant_counterexample :
    Relation.ReflTransGen Step exApproved
      (list_product_both_platforms exApproved (CreateOutcome.ok "E1" "u1")
        (CreateOutcome.err "boom")).1 ∧
    (list_product_both_platforms exApproved (CreateOutcome.ok "E1" "u1")
      (CreateOutcome.err "boom")).1.ebay_listing_id = some "E1" ∧
    (list_product_both_platforms exApproved (CreateOutcome.ok "E1" "u1")
      (CreateOutcome.err "boom")).1.listing_status ≠ "LISTED" ∧
    (list_product_both_platforms exApproved (CreateOutcome.ok "E1" "u1")
      (CreateOutcome.err "boom")).1.listing_status ≠ "LISTED_PARTIAL" :=
  ⟨Relation.ReflTransGen.single (Step.list exApproved _ _),
   by decide, by decide, by decide⟩

lemma statusInv_initial (p : Product) (h : InitialProduct p) : StatusInv p := by
  obtain ⟨_, he, ha⟩ := h
  constructor <;> intro ht
  · rw [he] at ht
    simp [pyTruthyStr] at ht
  · rw [ha] at ht
    simp [pyTruthyStr] at ht

lemma statusInv_list (p : Product) (eo ao : CreateOutcome) (hp : StatusInv p) :
    StatusInv (list_product_both_platforms p eo ao).1 := by
  by_cases hs : p.listing_status = "APPROVED"
  · have heb : pyTruthyStr p.ebay_listing_id = false := by
      cases htest : pyTruthyStr p.ebay_listing_id
      · rfl
      · have h2 := hp.1 htest
        rw [hs] at h2
        simp [EbayIdStates] at h2
    have hab : pyTruthyStr p.amazon_listing_id = false := by
      cases htest : pyTruthyStr p.amazon_listing_id
      · rfl
      · have h2 := hp.2 htest
        rw [hs] at h2
        simp [AmazonIdStates] at h2
    cases eo <;> cases ao <;>
      simp_all [list_product_both_platforms, _list_on_ebay, _list_on_amazon,
        _update_product_status, StatusInv, EbayIdStates, AmazonIdStates]
  · have hcond : p.listing_status ≠ "APPROVED" := hs
    simp only [list_product_both_platforms, if_pos hcond]
    exact hp

lemma statusInv_unlist (p : Product) (eo ao : EndOutcome) :
    StatusInv (unlist_product_both_platforms p eo ao).1 := by
  have hs : (unlist_product_both_platforms p eo ao).1.listing_status = "REMOVED" := rfl
  exact ⟨fun _ => by rw [hs]; simp [EbayIdStates],
         fun _ => by rw [hs]; simp [AmazonIdStates]⟩

lemma statusInv_markSold (p : Product) (spR : String) (price : Option ℚ) (now : ℕ)
    (o : EndOutcome) (hp : StatusInv p) :
    StatusInv (mark_sold_and_unlist_other p spR price now o).1 := by
  have key : ∀ q : Product,
      q.listing_status = "EBAY_SOLD" ∨ q.listing_status = "AMAZON_SOLD" →
      StatusInv q := by
    intro q hq
    rcases hq with hq | hq <;>
      exact ⟨fun _ => by rw [hq]; simp [EbayIdStates],
             fun _ => by rw [hq]; simp [AmazonIdStates]⟩
  by_cases h1 : pyUpper spR = "EBAY"
  · apply key
    have hEE : pyUpper "EBAY" = "EBAY" := by decide
    by_cases hA : pyTruthyStr p.amazon_listing_id = true <;>
      by_cases hpr : pyTruthyPrice price <;>
        cases o <;>
          simp [mark_sold_and_unlist_other, Product.mark_sold, _unlist_from_amazon,
            _unlist_from_ebay, h1, hEE, hA, hpr]
  · by_cases h2 : pyUpper spR = "AMAZON"
    · apply key
      have hAA : pyUpper "AMAZON" = "AMAZON" := by decide
      by_cases hE : pyTruthyStr p.ebay_listing_id = true <;>
        by_cases hpr : pyTruthyPrice price <;>
          cases o <;>
            simp [mark_sold_and_unlist_other, Product.mark_sold, _unlist_from_amazon,
              _unlist_from_ebay, h1, h2, hAA, hE, hpr]
    · by_cases h3 : pyUpper (pyUpper spR) = "EBAY"
      · apply key
        left
        by_cases hpr : pyTruthyPrice price <;>
          simp [mark_sold_and_unlist_other, Product.mark_sold, h1, h2, h3, hpr]
      · by_cases h4 : pyUpper (pyUpper spR) = "AMAZON"
        · apply key
          right
          by_cases hpr : pyTruthyPrice price <;>
            simp [mark_sold_and_unlist_other, Product.mark_sold, h1, h2, h3, h4, hpr]
        · by_cases hpr : pyTruthyPrice price <;>
            simp [mark_sold_and_unlist_other, Product.mark_sold, h1, h2, h3, h4, hpr,
              StatusInv] <;>
            exact ⟨hp.1, hp.2⟩

lemma statusInv_sweep (p : Product) (hp : StatusInv p) :
    StatusInv (sync_listing_status_product p).1 := hp

/-- Claim C5 as amended: over all records reachable from a freshly approved
record under the list, unlist, markSold and sweep operations, a truthy eBay
listing id can be held exactly in the states LISTED, EBAY_ONLY, EBAY_SOLD,
AMAZON_SOLD and REMOVED, and symmetrically for Amazon: the id is not confined
to live-listing states, because markSold never clears the selling platform id
and a failed end-listing call retains the other id even in the sold and
removed states. -/
theorem reachable_listing_id_status_invariant (p0 p : Product)
    (h0 : InitialProduct p0) (hr : Relation.ReflTransGen Step p0 p) :
    StatusInv p := by
  induction hr with
  | refl => exact statusInv_initial p0 h0
  | tail _ hstep ih =>
    cases hstep with
    | list eo ao => exact statusInv_list _ eo ao ih
    | unlist eo ao => exact statusInv_unlist _ eo ao
    | markSold sp price now o => exact statusInv_markSold _ sp price now o ih
    | sweep => exact statusInv_sweep _ ih

/-- Witness for the amended C5: the invariant holds at the record reached by
the counterexample trace above, instantiating the theorem on a one-step
reachability derivation. -/
theorem reachable_listing_id_status_invariant_witness :
    InitialProduct exApproved ∧
    StatusInv (list_product_both_platforms exApproved (CreateOutcome.ok "E1" "u1")
      (CreateOutcome.err "boom")).1 :=
  ⟨⟨rfl, rfl, rfl⟩,
   reachable_listing_id_status_invariant exApproved _ ⟨rfl, rfl, rfl⟩
     (Relation.ReflTransGen.single (Step.list exApproved _ _))⟩

end AutoMarket
